import Mathlib

/-!
Verification of the droplet-engine rain simulation (src/droplet-engine/src).

Embedding conventions:
* Rust `f32` values are modelled as exact rationals, represented as an
  integer numerator/denominator pair (`F`).  Every value produced by the
  program has a positive denominator.  IEEE rounding is idealised away;
  all arithmetic the engine performs (add, sub, mul, by-constant div,
  compare, casts) is exact here.
* Rust float-to-integer `as` casts truncate toward zero and saturate at
  the target type's bounds; they are modelled by `F.trunc` (`Int.tdiv`)
  followed by clamping.
* Rust integer wrap-around (release mode) for `i32` expressions is
  modelled by `i32wrap`; the `i32 as u32` reinterpretation by `i32ToU32`.
* The baked scene raster (module `scene/data`, arrays `BG_DEPTH`,
  `BG_FLOW_X/Y`, `BG_NORMAL_X/Y`, `BG_GROUND` and the dimensions
  `BG_WIDTH`, `BG_HEIGHT`) is not part of the sources; it is modelled
  from the spec (section 3: an immutable rectangular bundle of
  byte-valued arrays) as an explicit `Scene` parameter threaded through
  every function that queries terrain.
* Index arithmetic `py * w + x` inside a passed bounds check is modelled
  exactly over the integers; it coincides with the release-mode `i32`
  computation whenever `w * h` fits an `i32`, the regime in which the
  encode phase stays in bounds.
* The structure-of-arrays entity stores with a live count `n` are
  modelled as lists holding exactly the live slots `[0, n)`; the
  forward-compaction loops become folds that append each survivor to the
  write-out list, preserving the read order exactly as the write cursor
  does.
-/

set_option maxHeartbeats 1000000

namespace Rain

/-- Exact-rational model of an `f32` value: numerator and denominator.
All values built by the engine keep `den > 0`. -/
structure F where
  num : ℤ
  den : ℤ
deriving DecidableEq

def F.add (a b : F) : F := ⟨a.num * b.den + b.num * a.den, a.den * b.den⟩

def F.sub (a b : F) : F := ⟨a.num * b.den - b.num * a.den, a.den * b.den⟩

def F.mul (a b : F) : F := ⟨a.num * b.num, a.den * b.den⟩

def F.neg (a : F) : F := ⟨-a.num, a.den⟩

/-- Strict order on `F` (by cross multiplication; dens are positive). -/
def F.lt (a b : F) : Prop := a.num * b.den < b.num * a.den

def F.le (a b : F) : Prop := a.num * b.den ≤ b.num * a.den

/-- Value-level equality of two fraction representations. -/
def F.equiv (a b : F) : Prop := a.num * b.den = b.num * a.den

def F.abs (a : F) : F := ⟨|a.num|, a.den⟩

/-- Truncation toward zero, the rounding used by Rust float-to-int casts. -/
def F.trunc (a : F) : ℤ := a.num.tdiv a.den

instance : Add F := ⟨F.add⟩
instance : Sub F := ⟨F.sub⟩
instance : Mul F := ⟨F.mul⟩
instance : Neg F := ⟨F.neg⟩
instance : LT F := ⟨F.lt⟩
instance : LE F := ⟨F.le⟩

instance (a b : F) : Decidable (a < b) :=
  inferInstanceAs (Decidable (a.num * b.den < b.num * a.den))

instance (a b : F) : Decidable (a ≤ b) :=
  inferInstanceAs (Decidable (a.num * b.den ≤ b.num * a.den))

instance (a b : F) : Decidable (F.equiv a b) :=
  inferInstanceAs (Decidable (a.num * b.den = b.num * a.den))

instance (n : ℕ) : OfNat F n := ⟨⟨(n : ℤ), 1⟩⟩

/-- Rust `as usize` on an `f32`: truncate, saturate to `[0, 2^64)`. -/
def F.toUsize (a : F) : ℕ := min a.trunc.toNat 18446744073709551615

/-- Rust `as u8` on an `f32`: truncate, saturate to `[0, 255]`. -/
def F.toU8 (a : F) : ℕ := min a.trunc.toNat 255

/-- Rust `as i8` on an `f32`: truncate, saturate to `[-128, 127]`. -/
def F.toI8 (a : F) : ℤ := max (-128) (min 127 a.trunc)

/-- Rust `as i32` on an `f32`: truncate, saturate to the `i32` range. -/
def F.toI32 (a : F) : ℤ := max (-2147483648) (min 2147483647 a.trunc)

/-- Rust `f32::clamp(lo, hi)`. -/
def F.clamp (a lo hi : F) : F := if a < lo then lo else if hi < a then hi else a

/-- Two's-complement wrap of an integer into the `i32` range (release-mode
Rust arithmetic, and the `u32 as i32` cast). -/
def i32wrap (x : ℤ) : ℤ := (x + 2147483648) % 4294967296 - 2147483648

/-- The `i32 as u32` reinterpretation: the value modulo `2^32`. -/
def i32ToU32 (x : ℤ) : ℤ := x % 4294967296

/-- Modelled from the spec: the baked scene raster bundle produced by the
out-of-scope asset pipeline (`scene/data`, not among the sources).  Spec
section 3: for each raster cell `(x,y)` in `[0,RW)x[0,RH)` there are a
depth byte in `[0,255]`, normal and flow components in `[-127,127]`, and
a ground bit; the arrays are rectangular, fixed at load time and never
mutated.  Arrays are indexed row first (`BG_DEPTH[y][x]`). -/
structure Scene where
  bgW : ℕ
  bgH : ℕ
  depth : ℕ → ℕ → ℕ
  flowX : ℕ → ℕ → ℤ
  flowY : ℕ → ℕ → ℤ
  normalX : ℕ → ℕ → ℤ
  normalY : ℕ → ℕ → ℤ
  ground : ℕ → ℕ → ℕ

/-! Terrain queries, from `world/terrain.rs`. -/

/-- Depth at pixel, `world/terrain.rs` lines 10-13. -/
def get_depth (sc : Scene) (x y : ℕ) : F :=
  if sc.bgW ≤ x ∨ sc.bgH ≤ y then 0 else ⟨(sc.depth y x : ℤ), 255⟩

/-- Raw depth byte, `world/terrain.rs` lines 31-34. -/
def get_depth_raw (sc : Scene) (x y : ℕ) : ℕ :=
  if sc.bgW ≤ x ∨ sc.bgH ≤ y then 0 else sc.depth y x

/-- Ground test, `world/terrain.rs` lines 24-27. -/
def is_ground (sc : Scene) (x y : ℕ) : Bool :=
  if sc.bgW ≤ x ∨ sc.bgH ≤ y then false else sc.ground y x == 1

/-- Collision predicate, `world/terrain.rs` lines 39-51: false out of
bounds, false on sky (`depth <= 30`), otherwise compares the droplet's
depth-equivalent byte `((1 - drop_z) * 255) as u8` with the raster byte. -/
def hits_surface (sc : Scene) (x y : ℕ) (drop_z : F) (margin : ℕ) : Bool :=
  if sc.bgW ≤ x ∨ sc.bgH ≤ y then false
  else
    let bg_depth := sc.depth y x
    if bg_depth ≤ 30 then false
    else
      let drop_depth := F.toU8 (((1 : F) - drop_z) * 255)
      decide (((drop_depth : ℤ) - (bg_depth : ℤ)).natAbs < margin)

/-- Surface normal, `world/terrain.rs` lines 56-61. -/
def get_normal (sc : Scene) (x y : ℕ) : F × F :=
  if sc.bgW ≤ x ∨ sc.bgH ≤ y then (0, 0)
  else (⟨sc.normalX y x, 127⟩, ⟨sc.normalY y x, 127⟩)

/-! Flow queries, from `world/flow.rs`. -/

/-- Flow vector, `world/flow.rs` lines 11-17. -/
def get_flow (sc : Scene) (x y : ℕ) : F × F :=
  if sc.bgW ≤ x ∨ sc.bgH ≤ y then (0, 0)
  else (⟨sc.flowX y x, 127⟩, ⟨sc.flowY y x, 127⟩)

/-- Significant-flow test, `world/flow.rs` lines 22-28. -/
def has_flow (sc : Scene) (x y : ℕ) : Bool :=
  if sc.bgW ≤ x ∨ sc.bgH ≤ y then false
  else decide (10 < (sc.flowX y x).natAbs ∨ 10 < (sc.flowY y x).natAbs)

/-! The shared pseudo-random generator, `sim/mod.rs` lines 104-110. -/

/-- One xorshift32 step on the 32-bit register. -/
def xorshift32 (r : ℕ) : ℕ :=
  let a := r ^^^ ((r <<< 13) % 4294967296)
  let b := a ^^^ (a >>> 17)
  b ^^^ ((b <<< 5) % 4294967296)

/-- `RainWorld::rand`: advance the register, return `(reg >> 8) / 2^24`
as an `f32` in `[0,1)` together with the new register value. -/
def randF (rng : ℕ) : F × ℕ :=
  let r2 := xorshift32 rng
  (⟨((r2 >>> 8 : ℕ) : ℤ), 16777216⟩, r2)

/-- Screen-to-raster mapping `(v * scale) as usize` (`sim/droplet.rs`
lines 87-88, `sim/stream.rs` lines 73-74, 88-89).  The scale factor is
`Option F`: `none` models the non-finite `f32` (IEEE infinity) that the
unguarded division `BG_WIDTH / w` produces when a screen dimension is 0;
multiplying it by a positive coordinate gives infinity (cast saturates to
`usize::MAX`), by zero gives NaN and by a negative coordinate gives
negative infinity (both cast to 0). -/
def scaledToUsize (s : Option F) (v : F) : ℕ :=
  match s with
  | some q => F.toUsize (v * q)
  | none => if (0 : F) < v then 18446744073709551615 else 0

/-! Capacity limits, `sim/mod.rs` lines 18-20. -/

def MAX_DROPS : ℕ := 3000
def MAX_SPLASHES : ℕ := 200
def MAX_STREAMS : ℕ := 500

/-! Splashes, from `sim/splash.rs`.  The structure-of-arrays store is
modelled as the list of live slots `[0, n)`. -/

def SPLASH_FRAMES : ℕ := 24

structure Splash where
  x : F
  y : F
  z : F
  frame : ℕ
  dir : ℤ
  typ : ℕ
deriving DecidableEq

/-- `Splashes::spawn` (`sim/splash.rs` lines 42-53): silently dropped at
capacity; jitters x, draws a direction in `[-2, 2]`. -/
def Splashes.spawn (l : List Splash) (x y z : F) (typ : ℕ) (rng : ℕ) :
    List Splash × ℕ :=
  if MAX_SPLASHES ≤ l.length then (l, rng)
  else
    let p1 := randF rng
    let p2 := randF p1.2
    (l ++ [{ x := x + (p1.1 - ⟨1, 2⟩) * 4, y := y, z := z, frame := 0,
             dir := F.toI8 (p2.1 * 5) - 2, typ := typ }], p2.2)

/-- `Splashes::spawn_with_normal` (`sim/splash.rs` lines 57-90): jittered
x, drift biased by the normal x-component, type chosen directionally with
probability `0.3 + |nx| * 0.6`. -/
def Splashes.spawn_with_normal (l : List Splash) (x y z nx _ny : F)
    (rng : ℕ) : List Splash × ℕ :=
  if MAX_SPLASHES ≤ l.length then (l, rng)
  else
    let p1 := randF rng
    let sx := x + (p1.1 - ⟨1, 2⟩) * 4
    let p2 := randF p1.2
    let normal_bias := nx * 6
    let random_component := (p2.1 - ⟨1, 2⟩) * 2
    let dir := F.toI8 (F.clamp (normal_bias + random_component) (-(5 : F)) 5)
    let p3 := randF p2.2
    let dir_prob := (⟨3, 10⟩ : F) + nx.abs * ⟨6, 10⟩
    if p3.1 < dir_prob then
      (l ++ [{ x := sx, y := y, z := z, frame := 0, dir := dir,
               typ := if nx < 0 then 1 else 2 }], p3.2)
    else
      let p4 := randF p3.2
      (l ++ [{ x := sx, y := y, z := z, frame := 0, dir := dir,
               typ := if p4.1 < ⟨1, 2⟩ then 0 else 3 }], p4.2)

/-- Per-splash body of `Splashes::update` (`sim/splash.rs` lines 96-107):
advance the frame, drop the splash once it reaches `SPLASH_FRAMES`. -/
def Splashes.stepOpt (s : Splash) : Option Splash :=
  if SPLASH_FRAMES ≤ s.frame + 1 then none else some { s with frame := s.frame + 1 }

/-- `Splashes::update` (`sim/splash.rs` lines 93-110): one forward
compaction pass. -/
def Splashes.update (l : List Splash) : List Splash := l.filterMap Splashes.stepOpt

/-! Streams, from `sim/stream.rs`. -/

def FLOW_SPEED : F := ⟨2, 5⟩
def FLOW_LIFETIME : ℕ := 120
def DEPTH_MARGIN : ℕ := 48

structure Stream where
  x : F
  y : F
  z : F
  life : ℕ
deriving DecidableEq

/-- `Streams::spawn` (`sim/stream.rs` lines 41-50): silently dropped at
capacity; life starts at `FLOW_LIFETIME`. -/
def Streams.spawn (l : List Stream) (x y z : F) : List Stream :=
  if MAX_STREAMS ≤ l.length then l
  else l ++ [{ x := x, y := y, z := z, life := FLOW_LIFETIME }]

/-- Movement step of a stream (`sim/stream.rs` lines 72-80): sample the
flow at the raster-mapped current position and advance by
`flow * FLOW_SPEED * (1 - z/2)`. -/
def Streams.moved (sc : Scene) (scaleX scaleY : Option F) (st : Stream) : F × F :=
  let bx := scaledToUsize scaleX st.x
  let bgy := scaledToUsize scaleY st.y
  let f := get_flow sc bx bgy
  let speed := FLOW_SPEED * ((1 : F) - st.z * ⟨1, 2⟩)
  (st.x + f.1 * speed, st.y + f.2 * speed)

/-- Loop body of `Streams::update` (`sim/stream.rs` lines 64-111) for one
stream: skip dead streams, move along the flow, remove silently when the
new position leaves the screen, convert to a type-2 splash when the new
position no longer hits the surface and the stream was fresh
(`life > 60`), convert to a type-0 splash when the flow stopped, else
keep with `life - 1`. -/
def Streams.step (sc : Scene) (screen_w screen_h : F) (scaleX scaleY : Option F)
    (st : Stream) (splashes : List Splash) (rng : ℕ) :
    Option Stream × List Splash × ℕ :=
  if st.life = 0 then (none, splashes, rng)
  else
    let m := Streams.moved sc scaleX scaleY st
    let x := m.1
    let y := m.2
    if x < 0 ∨ screen_w ≤ x ∨ y < 0 ∨ screen_h ≤ y then (none, splashes, rng)
    else
      let bx := scaledToUsize scaleX x
      let bgy := scaledToUsize scaleY y
      if hits_surface sc bx bgy st.z DEPTH_MARGIN = false then
        if 60 < st.life then
          let q := Splashes.spawn splashes x y st.z 2 rng
          (none, q.1, q.2)
        else (none, splashes, rng)
      else if has_flow sc bx bgy = false then
        let q := Splashes.spawn splashes x y st.z 0 rng
        (none, q.1, q.2)
      else (some { x := x, y := y, z := st.z, life := st.life - 1 }, splashes, rng)

/-- The compaction fold of `Streams::update`: `acc` is the prefix already
written through the write cursor. -/
def Streams.updateGo (sc : Scene) (screen_w screen_h : F)
    (scaleX scaleY : Option F) :
    List Stream → List Stream → List Splash → ℕ →
    List Stream × List Splash × ℕ
  | [], acc, splashes, rng => (acc, splashes, rng)
  | st :: rest, acc, splashes, rng =>
    let q := Streams.step sc screen_w screen_h scaleX scaleY st splashes rng
    let acc2 := match q.1 with
      | some s2 => acc ++ [s2]
      | none => acc
    Streams.updateGo sc screen_w screen_h scaleX scaleY rest acc2 q.2.1 q.2.2

/-- `Streams::update` (`sim/stream.rs` lines 53-114).  The splashes
spawned by conversions draw from a local register initialised to
`0x12345678` (line 61), not from the orchestrator's register. -/
def Streams.update (sc : Scene) (screen_w screen_h : F)
    (scaleX scaleY : Option F) (l : List Stream) (splashes : List Splash) :
    List Stream × List Splash :=
  let q := Streams.updateGo sc screen_w screen_h scaleX scaleY l [] splashes 0x12345678
  (q.1, q.2.1)

/-! Droplets, from `sim/droplet.rs`. -/

def GROUND_NEAR : F := 1
def GROUND_FAR : F := ⟨2, 5⟩
def VEL_NEAR : F := ⟨17, 10⟩
def VEL_FAR : F := ⟨7, 20⟩
def SPLASH_CHANCE : F := ⟨7, 10⟩
def SLIDE_CHANCE : F := ⟨3, 5⟩

structure Droplet where
  x : F
  y : F
  z : F
  v : F
deriving DecidableEq

/-- `Droplets::spawn` (`sim/droplet.rs` lines 46-63): spawn up to `count`
droplets above the screen, stopping (for the whole call) at capacity.
Draw order per droplet: z, x, y, velocity factor. -/
def Droplets.spawn (l : List Droplet) (count : ℕ) (screen_w : F) (rng : ℕ) :
    List Droplet × ℕ :=
  match count with
  | 0 => (l, rng)
  | count + 1 =>
    if MAX_DROPS ≤ l.length then (l, rng)
    else
      let pz := randF rng
      let px := randF pz.2
      let py := randF px.2
      let pv := randF py.2
      let d : Droplet :=
        { x := px.1 * screen_w, y := -(py.1 * 15), z := pz.1,
          v := (VEL_NEAR + (VEL_FAR - VEL_NEAR) * pz.1) * (⟨4, 5⟩ + pv.1 * ⟨2, 5⟩) }
      Droplets.spawn (l ++ [d]) count screen_w pv.2

/-- Loop body of `Droplets::update` (`sim/droplet.rs` lines 78-118) for
one droplet: advance y by v; on an on-screen surface hit spawn a stream
with probability `SLIDE_CHANCE` when the surface flows, then always a
normal-biased splash, and remove; below the perspective ground line spawn
a random-type splash with probability `SPLASH_CHANCE` and remove; else
keep the advanced droplet. -/
def Droplets.step (sc : Scene) (screen_w screen_h : F)
    (scaleX scaleY : Option F) (d : Droplet)
    (splashes : List Splash) (streams : List Stream) (rng : ℕ) :
    Option Droplet × List Splash × List Stream × ℕ :=
  let x := d.x
  let y := d.y + d.v
  let z := d.z
  let ground := screen_h * (GROUND_NEAR + (GROUND_FAR - GROUND_NEAR) * z)
  let bx := scaledToUsize scaleX x
  let bgy := scaledToUsize scaleY y
  if ((0 : F) ≤ y ∧ y < screen_h ∧ (0 : F) ≤ x ∧ x < screen_w) ∧
      hits_surface sc bx bgy z DEPTH_MARGIN = true then
    let sr :=
      if has_flow sc bx bgy = true then
        let p := randF rng
        if p.1 < SLIDE_CHANCE then (Streams.spawn streams x y z, p.2)
        else (streams, p.2)
      else (streams, rng)
    let n := get_normal sc bx bgy
    let q := Splashes.spawn_with_normal splashes x y z n.1 n.2 sr.2
    (none, q.1, sr.1, q.2)
  else if ground < y then
    let p := randF rng
    if p.1 < SPLASH_CHANCE then
      let pt := randF p.2
      let typ := F.toU8 (pt.1 * 4)
      let q := Splashes.spawn splashes x ground z typ pt.2
      (none, q.1, streams, q.2)
    else (none, splashes, streams, p.2)
  else (some { x := x, y := y, z := z, v := d.v }, splashes, streams, rng)

/-- The compaction fold of `Droplets::update`. -/
def Droplets.updateGo (sc : Scene) (screen_w screen_h : F)
    (scaleX scaleY : Option F) :
    List Droplet → List Droplet → List Splash → List Stream → ℕ →
    List Droplet × List Splash × List Stream × ℕ
  | [], acc, splashes, streams, rng => (acc, splashes, streams, rng)
  | d :: rest, acc, splashes, streams, rng =>
    let q := Droplets.step sc screen_w screen_h scaleX scaleY d splashes streams rng
    let acc2 := match q.1 with
      | some d2 => acc ++ [d2]
      | none => acc
    Droplets.updateGo sc screen_w screen_h scaleX scaleY rest acc2 q.2.1 q.2.2.1 q.2.2.2

/-- `Droplets::update` (`sim/droplet.rs` lines 66-121). -/
def Droplets.update (sc : Scene) (screen_w screen_h : F)
    (scaleX scaleY : Option F) (l : List Droplet)
    (splashes : List Splash) (streams : List Stream) (rng : ℕ) :
    List Droplet × List Splash × List Stream × ℕ :=
  Droplets.updateGo sc screen_w screen_h scaleX scaleY l [] splashes streams rng

/-! The encoder, from `render.rs`.  Each encode pass is factored into the
list of conditional stores it performs, in program order: a pair
`(idx, enc)` records that the pass executed
`if enc > out[idx] { out[idx] = enc }` at that point.  The bounds checks
guarding each store are part of building the list; `Encoder.commit`
replays the stores on the buffer. -/

def SPLASH_OFFSET : ℕ := 33
def STREAM_OFFSET : ℕ := 97

/-- Replay of the conditional stores on a buffer: each store writes its
value only if it is strictly greater than the value already present
(`render.rs` lines 63, 103, 112). -/
def Encoder.commit (buf : ℕ → ℕ) : List (ℕ × ℕ) → ℕ → ℕ
  | [] => buf
  | iw :: rest =>
    Encoder.commit (fun j => if j = iw.1 ∧ buf iw.1 < iw.2 then iw.2 else buf j) rest

/-- `Encoder::put` (`render.rs` lines 107-114): the store performed for
one splash mark, guarded by the `u32`-cast bounds check.  Coordinates are
wrapped to `i32` first (release-mode arithmetic of the callers' offset
expressions). -/
def Encoder.putWrite (x y : ℤ) (char_idx bucket : ℕ) (w h : ℤ) :
    Option (ℕ × ℕ) :=
  let x2 := i32wrap x
  let y2 := i32wrap y
  if i32ToU32 x2 < i32ToU32 w ∧ i32ToU32 y2 < i32ToU32 h then
    some ((y2 * w + x2).toNat, SPLASH_OFFSET + bucket * 8 + char_idx)
  else none

/-- Stores of `Encoder::encode_drops` for one droplet (`render.rs` lines
49-66): skip when x is off screen, else one trail pixel per `dy` below
`trail`, each row-checked. -/
def Encoder.dropWrites (d : Droplet) (w h : ℤ) : List (ℕ × ℕ) :=
  let x := F.toI32 d.x
  let y := F.toI32 d.y
  if x < 0 ∨ w ≤ x then []
  else
    let bucket := min (F.toU8 (((1 : F) - d.z) * 8)) 7
    let trail := F.toI32 (if ((5 : F) - d.z * 4) < 1 then 1 else (5 : F) - d.z * 4)
    (List.range trail.toNat).filterMap fun (dy : ℕ) =>
      let py := i32wrap (y - (dy : ℤ))
      if 0 ≤ py ∧ py < h then
        some ((py * w + x).toNat, bucket * 4 + min dy 3 + 1)
      else none

/-- `Encoder::encode_drops` (`render.rs` lines 48-67). -/
def Encoder.encode_drops (drops : List Droplet) (w h : ℤ) : List (ℕ × ℕ) :=
  (drops.map (Encoder.dropWrites · w h)).flatten

/-- Glyph marks `(px, py, char_idx)` of `Encoder::splash_crown`
(`render.rs` lines 133-174), selected by the frame bucket. -/
def Encoder.crownMarks (cx gy s d : ℤ) : ℕ → List (ℤ × ℤ × ℕ)
  | 0 => [(cx, gy, 0)]
  | 1 => [(cx - s + d, gy, 4), (cx, gy, 0), (cx + s + d, gy, 5)]
  | 2 => [(cx + d, gy - s, 1), (cx - s + d, gy, 4), (cx + s + d, gy, 5)]
  | 3 => [(cx - s * 2 + d, gy - s, 4), (cx + d, gy - s, 1),
          (cx + s * 2 + d, gy - s, 5), (cx - s, gy, 4), (cx + s, gy, 5)]
  | 4 => [(cx - s * 2 + d * 2, gy - s * 2, 2), (cx + d, gy - s * 2, 2),
          (cx + s * 2 + d * 2, gy - s * 2, 2), (cx - s * 2 + d, gy - s, 4),
          (cx + s * 2 + d, gy - s, 5)]
  | 5 => [(cx - s * 3 + d * 2, gy - s * 2, 2), (cx + d, gy - s * 2, 2),
          (cx + s * 3 + d * 2, gy - s * 2, 2)]
  | 6 => [(cx - s * 2 + d, gy - s, 2), (cx + s * 2 + d, gy - s, 2)]
  | _ => [(cx - s + d, gy, 6), (cx + s + d, gy, 6)]

/-- Glyph marks of `Encoder::splash_left` (`render.rs` lines 176-211). -/
def Encoder.leftMarks (cx gy s d : ℤ) : ℕ → List (ℤ × ℤ × ℕ)
  | 0 => [(cx, gy, 0)]
  | 1 => [(cx - s + d, gy, 4), (cx, gy, 0)]
  | 2 => [(cx - s + d, gy - s, 4), (cx + d, gy - s, 1), (cx - s * 2 + d, gy, 4)]
  | 3 => [(cx - s * 2 + d, gy - s * 2, 2), (cx - s + d, gy - s, 4),
          (cx + d, gy - s, 1), (cx - s * 3 + d, gy, 4)]
  | 4 => [(cx - s * 3 + d, gy - s * 2, 2), (cx - s + d, gy - s * 2, 2),
          (cx - s * 2 + d, gy - s, 4), (cx + d, gy - s, 1)]
  | 5 => [(cx - s * 4 + d, gy - s * 2, 2), (cx - s * 2 + d, gy - s * 2, 2),
          (cx - s * 3 + d, gy - s, 4)]
  | 6 => [(cx - s * 3 + d, gy - s, 2), (cx - s + d, gy - s, 2)]
  | _ => [(cx - s * 2 + d, gy, 6)]

/-- Glyph marks of `Encoder::splash_right` (`render.rs` lines 213-248). -/
def Encoder.rightMarks (cx gy s d : ℤ) : ℕ → List (ℤ × ℤ × ℕ)
  | 0 => [(cx, gy, 0)]
  | 1 => [(cx, gy, 0), (cx + s + d, gy, 5)]
  | 2 => [(cx + d, gy - s, 1), (cx + s + d, gy - s, 5), (cx + s * 2 + d, gy, 5)]
  | 3 => [(cx + d, gy - s, 1), (cx + s + d, gy - s, 5),
          (cx + s * 2 + d, gy - s * 2, 2), (cx + s * 3 + d, gy, 5)]
  | 4 => [(cx + d, gy - s, 1), (cx + s * 2 + d, gy - s, 5),
          (cx + s + d, gy - s * 2, 2), (cx + s * 3 + d, gy - s * 2, 2)]
  | 5 => [(cx + s * 3 + d, gy - s, 5), (cx + s * 2 + d, gy - s * 2, 2),
          (cx + s * 4 + d, gy - s * 2, 2)]
  | 6 => [(cx + s + d, gy - s, 2), (cx + s * 3 + d, gy - s, 2)]
  | _ => [(cx + s * 2 + d, gy, 6)]

/-- Glyph marks of `Encoder::splash_spray` (`render.rs` lines 250-286). -/
def Encoder.sprayMarks (cx gy s d : ℤ) : ℕ → List (ℤ × ℤ × ℕ)
  | 0 => [(cx, gy, 0)]
  | 1 => [(cx + d, gy, 0), (cx - s + d, gy, 2), (cx + s + d, gy, 2)]
  | 2 => [(cx + d * 2, gy - s, 2), (cx - s + d, gy - s, 2), (cx + s * 2 + d, gy, 2)]
  | 3 => [(cx + d * 2, gy - s * 2, 2), (cx - s * 2 + d, gy - s, 2),
          (cx + s + d, gy - s, 2), (cx + s * 3 + d, gy, 2)]
  | 4 => [(cx - s + d, gy - s * 2, 2), (cx + s * 2 + d, gy - s * 2, 2),
          (cx - s * 2 + d, gy - s, 2), (cx + s * 3 + d, gy - s, 2)]
  | 5 => [(cx - s * 2 + d, gy - s * 2, 2), (cx + s + d, gy - s * 2, 2),
          (cx + s * 3 + d, gy - s, 2)]
  | 6 => [(cx - s + d, gy - s, 2), (cx + s * 2 + d, gy - s, 2)]
  | _ => [(cx + d, gy, 6)]

/-- `Encoder::render_splash` (`render.rs` lines 116-131) as its list of
stores: a single simplified glyph when the scale is 0, else the pattern
table of the type.  The `rng` parameter of the Rust function is unused
(`_rng`) and therefore omitted. -/
def Encoder.render_splashWrites (cx gy : ℤ) (b : ℕ) (s : ℤ) (f : ℕ) (d : ℤ)
    (typ : ℕ) (w h : ℤ) : List (ℕ × ℕ) :=
  if s = 0 then
    let c := if f < 3 then 0 else if f < 6 then 2 else 6
    (Encoder.putWrite cx gy c b w h).toList
  else
    let marks :=
      match typ with
      | 0 => Encoder.crownMarks cx gy s d f
      | 1 => Encoder.leftMarks cx gy s d f
      | 2 => Encoder.rightMarks cx gy s d f
      | _ => Encoder.sprayMarks cx gy s d f
    marks.filterMap fun m => Encoder.putWrite m.1 m.2.1 m.2.2 b w h

/-- Stores of `Encoder::encode_splashes` for one splash (`render.rs`
lines 71-83). -/
def Encoder.splashWrites (sp : Splash) (w h : ℤ) : List (ℕ × ℕ) :=
  let x := F.toI32 sp.x
  let y := F.toI32 sp.y
  let bucket := min (F.toU8 (((1 : F) - sp.z) * 8)) 7
  let scale := F.toI32 (((1 : F) - sp.z) * ⟨5, 2⟩)
  let frame := sp.frame / 3
  Encoder.render_splashWrites x y bucket scale frame sp.dir sp.typ w h

/-- `Encoder::encode_splashes` (`render.rs` lines 70-84). -/
def Encoder.encode_splashes (splashes : List Splash) (w h : ℤ) : List (ℕ × ℕ) :=
  (splashes.map (Encoder.splashWrites · w h)).flatten

/-- Stores of `Encoder::encode_streams` for one stream (`render.rs` lines
88-104): one store at the stream's pixel, sized by life thresholds. -/
def Encoder.streamWrites (st : Stream) (w h : ℤ) : List (ℕ × ℕ) :=
  let x := F.toI32 st.x
  let y := F.toI32 st.y
  if x < 0 ∨ w ≤ x ∨ y < 0 ∨ h ≤ y then []
  else
    let bucket := min (F.toU8 (((1 : F) - st.z) * 8)) 7
    let size := if 80 < st.life then 3 else if 40 < st.life then 2
                else if 10 < st.life then 1 else 0
    [((y * w + x).toNat, STREAM_OFFSET + bucket * 4 + size)]

/-- `Encoder::encode_streams` (`render.rs` lines 87-105). -/
def Encoder.encode_streams (streams : List Stream) (w h : ℤ) : List (ℕ × ℕ) :=
  (streams.map (Encoder.streamWrites · w h)).flatten

/-- The encoder state (`render.rs` lines 14-18): the output byte buffer,
modelled as its length together with the byte at each index. -/
structure Encoder where
  w : ℕ
  h : ℕ
  len : ℕ
  out : ℕ → ℕ

/-- `Encoder::new` (`render.rs` lines 21-27): a zeroed buffer of `w * h`
bytes (`u32` multiplication, so modulo `2^32`). -/
def Encoder.new (w h : ℕ) : Encoder :=
  { w := w, h := h, len := w * h % 4294967296, out := fun _ => 0 }

/-- `Encoder::resize` (`render.rs` lines 29-33): `Vec::resize` keeps the
prefix and zero-fills any extension. -/
def Encoder.resize (e : Encoder) (w h : ℕ) : Encoder :=
  { w := w, h := h, len := w * h % 4294967296,
    out := fun i => if i < min e.len (w * h % 4294967296) then e.out i else 0 }

/-- `Encoder::clear` (`render.rs` lines 35-37). -/
def Encoder.clear (e : Encoder) : Encoder := { e with out := fun _ => 0 }

/-! The orchestrator, from `sim/mod.rs`. -/

structure RainWorld where
  w : ℕ
  h : ℕ
  scaleX : Option F
  scaleY : Option F
  drops : List Droplet
  splashes : List Splash
  streams : List Stream
  encoder : Encoder
  rng : ℕ

/-- The scale-factor computation `BG as f32 / screen as f32`
(`sim/mod.rs` lines 49-50, 62-63).  There is no guard: when the screen
dimension is 0 the IEEE division yields a non-finite value, modelled by
`none` (the raster dimensions are positive, spec section 3). -/
def scaleFactor (bg screen : ℕ) : Option F :=
  if screen = 0 then none else some ⟨(bg : ℤ), (screen : ℤ)⟩

/-- `RainWorld::new` (`sim/mod.rs` lines 45-57). -/
def RainWorld.new (sc : Scene) (w h : ℕ) : RainWorld :=
  { w := w, h := h,
    scaleX := scaleFactor sc.bgW w, scaleY := scaleFactor sc.bgH h,
    drops := [], splashes := [], streams := [],
    encoder := Encoder.new w h, rng := 0xDEADBEEF }

/-- `RainWorld::resize` (`sim/mod.rs` lines 59-68): a hard reset of all
populations, buffer reallocation and scale recomputation. -/
def RainWorld.resize (sc : Scene) (st : RainWorld) (w h : ℕ) : RainWorld :=
  { st with
    w := w, h := h
    scaleX := scaleFactor sc.bgW w, scaleY := scaleFactor sc.bgH h
    encoder := st.encoder.resize w h
    drops := [], splashes := [], streams := [] }

/-- The spawn-and-droplet-update prefix of `RainWorld::tick`
(`sim/mod.rs` lines 73-87): spawn `(w >> 6) + 1` droplets, then update
the droplet set. -/
def RainWorld.dropPhase (sc : Scene) (st : RainWorld) :
    List Droplet × List Splash × List Stream × ℕ :=
  let spawn_count := (st.w >>> 6) + 1
  let q := Droplets.spawn st.drops spawn_count ⟨(st.w : ℤ), 1⟩ st.rng
  Droplets.update sc ⟨(st.w : ℤ), 1⟩ ⟨(st.h : ℤ), 1⟩ st.scaleX st.scaleY
    q.1 st.splashes st.streams q.2

/-- The conditional stores performed by the encode phase of one tick, in
program order: droplets, then splashes, then streams (`sim/mod.rs` lines
98-100).  Screen dimensions are passed as `self.w as i32`. -/
def RainWorld.tickWrites (sc : Scene) (st : RainWorld) : List (ℕ × ℕ) :=
  let dq := RainWorld.dropPhase sc st
  let splashes2 := Splashes.update dq.2.1
  let sq := Streams.update sc ⟨(st.w : ℤ), 1⟩ ⟨(st.h : ℤ), 1⟩ st.scaleX st.scaleY
    dq.2.2.1 splashes2
  let wi := i32wrap (st.w : ℤ)
  let hi := i32wrap (st.h : ℤ)
  Encoder.encode_drops dq.1 wi hi ++ Encoder.encode_splashes sq.2 wi hi ++
    Encoder.encode_streams sq.1 wi hi

/-- `RainWorld::tick` (`sim/mod.rs` lines 70-101): clear the buffer,
spawn and update droplets, update splashes, update streams (which may
spawn splashes), then encode droplets, splashes, streams.
`encode_splashes` receives the register but never draws from it
(`render.rs` line 116, `_rng`). -/
def RainWorld.tick (sc : Scene) (st : RainWorld) : RainWorld :=
  let dq := RainWorld.dropPhase sc st
  let splashes2 := Splashes.update dq.2.1
  let sq := Streams.update sc ⟨(st.w : ℤ), 1⟩ ⟨(st.h : ℤ), 1⟩ st.scaleX st.scaleY
    dq.2.2.1 splashes2
  let cleared := st.encoder.clear
  { st with
    drops := dq.1, splashes := sq.2, streams := sq.1, rng := dq.2.2.2
    encoder := { cleared with out := Encoder.commit cleared.out (RainWorld.tickWrites sc st) } }

/-- `RainWorld::output_len` (`sim/mod.rs` line 114). -/
def RainWorld.output_len (st : RainWorld) : ℕ := st.encoder.len

/-- Iterated ticks. -/
def RainWorld.ticks (sc : Scene) : ℕ → RainWorld → RainWorld
  | 0, st => st
  | n + 1, st => RainWorld.ticks sc n (RainWorld.tick sc st)

/-- States reachable from a construction through any sequence of resize
and tick calls against a fixed scene. -/
inductive Reachable (sc : Scene) : RainWorld → Prop
  | init (w h : ℕ) : Reachable sc (RainWorld.new sc w h)
  | resize {st : RainWorld} (w h : ℕ) :
      Reachable sc st → Reachable sc (RainWorld.resize sc st w h)
  | tick {st : RainWorld} :
      Reachable sc st → Reachable sc (RainWorld.tick sc st)

/-! Concrete scenes used for witnesses and counterexamples.  Modelled
from the spec (section 3 fixes only the value ranges of the raster
cells; sections 8's scenarios posit rasters that are all ground with or
without flow): the baked `scene/data` arrays are not among the sources,
so concrete raster contents are chosen within the documented ranges. -/

/-- A raster that is near geometry everywhere (depth byte 255) with a
uniform rightward flow of full strength. -/
def flatScene : Scene :=
  { bgW := 10, bgH := 10, depth := fun _ _ => 255, flowX := fun _ _ => 127,
    flowY := fun _ _ => 0, normalX := fun _ _ => 0, normalY := fun _ _ => 0,
    ground := fun _ _ => 1 }

/-- A raster that is near geometry everywhere but completely flat (no
flow): streams pool immediately. -/
def crownScene : Scene :=
  { bgW := 10, bgH := 10, depth := fun _ _ => 255, flowX := fun _ _ => 0,
    flowY := fun _ _ => 0, normalX := fun _ _ => 0, normalY := fun _ _ => 0,
    ground := fun _ _ => 1 }

/-- A raster whose left half (x <= 5) is near geometry and whose right
half is sky, with a rightward flow: streams slide off the edge. -/
def edgeScene : Scene :=
  { bgW := 10, bgH := 10, depth := fun _ x => if x ≤ 5 then 255 else 0,
    flowX := fun _ _ => 127, flowY := fun _ _ => 0, normalX := fun _ _ => 0,
    normalY := fun _ _ => 0, ground := fun _ _ => 1 }

/-- C1: for every raster coordinate, droplet depth and margin,
`hits_surface` returns false out of the raster bounds, false when the
stored depth byte is at most 30 (the sky cutoff), and otherwise true iff
the absolute difference between the droplet's depth-equivalent byte
`(1-z)*255` truncated to a byte and the raster depth byte is strictly
smaller than the margin. -/
theorem c1_hits_surface_spec (sc : Scene) (x y : ℕ) (z : F) (m : ℕ) :
    ((sc.bgW ≤ x ∨ sc.bgH ≤ y) → hits_surface sc x y z m = false) ∧
    (x < sc.bgW → y < sc.bgH → sc.depth y x ≤ 30 →
      hits_surface sc x y z m = false) ∧
    (x < sc.bgW → y < sc.bgH → 30 < sc.depth y x →
      (hits_surface sc x y z m = true ↔
        ((F.toU8 (((1 : F) - z) * 255) : ℤ) - (sc.depth y x : ℤ)).natAbs < m)) := by
  refine ⟨fun hb => ?_, fun hx hy hd => ?_, fun hx hy hd => ?_⟩
  · simp [hits_surface, hb]
  · have hb : ¬ (sc.bgW ≤ x ∨ sc.bgH ≤ y) := by omega
    simp [hits_surface, hb, hd]
  · have hb : ¬ (sc.bgW ≤ x ∨ sc.bgH ≤ y) := by omega
    have hd2 : ¬ (sc.depth y x ≤ 30) := by omega
    simp [hits_surface, hb, hd2]

/-- Witness for C1 at a concrete in-bounds, non-sky raster cell. -/
theorem c1_hits_surface_spec_witness :
    (0 < flatScene.bgW ∧ 0 < flatScene.bgH ∧ 30 < flatScene.depth 0 0) ∧
    (hits_surface flatScene 0 0 0 48 = true ↔
      ((F.toU8 (((1 : F) - 0) * 255) : ℤ) - (flatScene.depth 0 0 : ℤ)).natAbs < 48) :=
  ⟨by decide, (c1_hits_surface_spec flatScene 0 0 0 48).2.2 (by decide) (by decide) (by decide)⟩

/-! Pure projections of the update loop bodies.  Whether a droplet or a
stream survives its update pass, and the survivor's new state, depend
only on the entity and the geometry, not on the splash list, the stream
list or the register threaded through the loop. -/

/-- Survivor component of `Droplets.step`, evaluated at the neutral
state. -/
def Droplets.stepOpt (sc : Scene) (screen_w screen_h : F)
    (scaleX scaleY : Option F) (d : Droplet) : Option Droplet :=
  (Droplets.step sc screen_w screen_h scaleX scaleY d [] [] 0).1

/-- Survivor component of `Streams.step`, evaluated at the neutral
state. -/
def Streams.stepOpt (sc : Scene) (screen_w screen_h : F)
    (scaleX scaleY : Option F) (st : Stream) : Option Stream :=
  (Streams.step sc screen_w screen_h scaleX scaleY st [] 0).1

theorem Droplets.drop_step_fst (sc : Scene) (screen_w screen_h : F)
    (scaleX scaleY : Option F) (d : Droplet) (sp : List Splash)
    (str : List Stream) (rng : ℕ) :
    (Droplets.step sc screen_w screen_h scaleX scaleY d sp str rng).1 =
      Droplets.stepOpt sc screen_w screen_h scaleX scaleY d := by
  unfold Droplets.stepOpt Droplets.step
  dsimp only
  split
  · rfl
  · split
    · split <;> split <;> rfl
    · rfl

theorem Streams.stream_step_fst (sc : Scene) (screen_w screen_h : F)
    (scaleX scaleY : Option F) (st : Stream) (sp : List Splash) (rng : ℕ) :
    (Streams.step sc screen_w screen_h scaleX scaleY st sp rng).1 =
      Streams.stepOpt sc screen_w screen_h scaleX scaleY st := by
  unfold Streams.stepOpt Streams.step
  dsimp only
  split
  · rfl
  · split
    · rfl
    · split
      · split <;> rfl
      · split <;> rfl

theorem Droplets.drop_updateGo_fst (sc : Scene) (screen_w screen_h : F)
    (scaleX scaleY : Option F) (l : List Droplet) :
    ∀ (acc : List Droplet) (sp : List Splash) (str : List Stream) (rng : ℕ),
    (Droplets.updateGo sc screen_w screen_h scaleX scaleY l acc sp str rng).1 =
      acc ++ l.filterMap (Droplets.stepOpt sc screen_w screen_h scaleX scaleY) := by
  induction l with
  | nil => intro acc sp str rng; simp [Droplets.updateGo]
  | cons d rest ih =>
    intro acc sp str rng
    unfold Droplets.updateGo
    dsimp only
    rw [Droplets.drop_step_fst]
    cases hq : Droplets.stepOpt sc screen_w screen_h scaleX scaleY d with
    | none => rw [ih]; simp [List.filterMap_cons, hq]
    | some d2 => rw [ih]; simp [List.filterMap_cons, hq]

theorem Streams.stream_updateGo_fst (sc : Scene) (screen_w screen_h : F)
    (scaleX scaleY : Option F) (l : List Stream) :
    ∀ (acc : List Stream) (sp : List Splash) (rng : ℕ),
    (Streams.updateGo sc screen_w screen_h scaleX scaleY l acc sp rng).1 =
      acc ++ l.filterMap (Streams.stepOpt sc screen_w screen_h scaleX scaleY) := by
  induction l with
  | nil => intro acc sp rng; simp [Streams.updateGo]
  | cons st rest ih =>
    intro acc sp rng
    unfold Streams.updateGo
    dsimp only
    rw [Streams.stream_step_fst]
    cases hq : Streams.stepOpt sc screen_w screen_h scaleX scaleY st with
    | none => rw [ih]; simp [List.filterMap_cons, hq]
    | some s2 => rw [ih]; simp [List.filterMap_cons, hq]

/-! Capacity lemmas: every spawn silently drops the entity at capacity,
and no update pass grows a population. -/

theorem Splashes.splash_spawn_length (l : List Splash) (x y z : F) (typ : ℕ) (rng : ℕ)
    (hl : l.length ≤ MAX_SPLASHES) :
    ((Splashes.spawn l x y z typ rng).1).length ≤ MAX_SPLASHES := by
  unfold Splashes.spawn
  split
  · simpa using hl
  · rename_i hfull
    simp only [List.length_append, List.length_cons, List.length_nil]
    omega

theorem Splashes.spawn_with_normal_length (l : List Splash) (x y z nx ny : F)
    (rng : ℕ) (hl : l.length ≤ MAX_SPLASHES) :
    ((Splashes.spawn_with_normal l x y z nx ny rng).1).length ≤ MAX_SPLASHES := by
  unfold Splashes.spawn_with_normal
  split
  · simpa using hl
  · rename_i hfull
    dsimp only
    split <;>
      (simp only [List.length_append, List.length_cons, List.length_nil]; omega)

theorem Streams.stream_spawn_length (l : List Stream) (x y z : F)
    (hl : l.length ≤ MAX_STREAMS) :
    (Streams.spawn l x y z).length ≤ MAX_STREAMS := by
  unfold Streams.spawn
  split
  · simpa using hl
  · rename_i hfull
    simp only [List.length_append, List.length_cons, List.length_nil]
    omega

theorem Droplets.drop_spawn_length (count : ℕ) :
    ∀ (l : List Droplet) (screen_w : F) (rng : ℕ), l.length ≤ MAX_DROPS →
    ((Droplets.spawn l count screen_w rng).1).length ≤ MAX_DROPS := by
  induction count with
  | zero => intro l screen_w rng hl; simpa [Droplets.spawn] using hl
  | succ k ih =>
    intro l screen_w rng hl
    unfold Droplets.spawn
    split
    · simpa using hl
    · rename_i hfull
      dsimp only
      apply ih
      simp only [List.length_append, List.length_cons, List.length_nil]
      omega

theorem Droplets.drop_step_bounds (sc : Scene) (screen_w screen_h : F)
    (scaleX scaleY : Option F) (d : Droplet) (sp : List Splash)
    (str : List Stream) (rng : ℕ)
    (hsp : sp.length ≤ MAX_SPLASHES) (hst : str.length ≤ MAX_STREAMS) :
    ((Droplets.step sc screen_w screen_h scaleX scaleY d sp str rng).2.1).length ≤ MAX_SPLASHES ∧
    ((Droplets.step sc screen_w screen_h scaleX scaleY d sp str rng).2.2.1).length ≤ MAX_STREAMS := by
  unfold Droplets.step
  dsimp only
  split
  · constructor
    · exact Splashes.spawn_with_normal_length _ _ _ _ _ _ _ hsp
    · split
      · split
        · exact Streams.stream_spawn_length _ _ _ _ hst
        · exact hst
      · exact hst
  · split
    · split
      · exact ⟨Splashes.splash_spawn_length _ _ _ _ _ _ hsp, hst⟩
      · exact ⟨hsp, hst⟩
    · exact ⟨hsp, hst⟩

theorem Streams.stream_step_bounds (sc : Scene) (screen_w screen_h : F)
    (scaleX scaleY : Option F) (st : Stream) (sp : List Splash) (rng : ℕ)
    (hsp : sp.length ≤ MAX_SPLASHES) :
    ((Streams.step sc screen_w screen_h scaleX scaleY st sp rng).2.1).length ≤ MAX_SPLASHES := by
  unfold Streams.step
  dsimp only
  split
  · exact hsp
  · split
    · exact hsp
    · split
      · split
        · exact Splashes.splash_spawn_length _ _ _ _ _ _ hsp
        · exact hsp
      · split
        · exact Splashes.splash_spawn_length _ _ _ _ _ _ hsp
        · exact hsp

theorem Droplets.drop_updateGo_bounds (sc : Scene) (screen_w screen_h : F)
    (scaleX scaleY : Option F) (l : List Droplet) :
    ∀ (acc : List Droplet) (sp : List Splash) (str : List Stream) (rng : ℕ),
    sp.length ≤ MAX_SPLASHES → str.length ≤ MAX_STREAMS →
    ((Droplets.updateGo sc screen_w screen_h scaleX scaleY l acc sp str rng).2.1).length ≤ MAX_SPLASHES ∧
    ((Droplets.updateGo sc screen_w screen_h scaleX scaleY l acc sp str rng).2.2.1).length ≤ MAX_STREAMS := by
  induction l with
  | nil => intro acc sp str rng hsp hst; exact ⟨hsp, hst⟩
  | cons d rest ih =>
    intro acc sp str rng hsp hst
    unfold Droplets.updateGo
    dsimp only
    have hb := Droplets.drop_step_bounds sc screen_w screen_h scaleX scaleY d sp str rng hsp hst
    exact ih _ _ _ _ hb.1 hb.2

theorem Streams.stream_updateGo_bounds (sc : Scene) (screen_w screen_h : F)
    (scaleX scaleY : Option F) (l : List Stream) :
    ∀ (acc : List Stream) (sp : List Splash) (rng : ℕ),
    sp.length ≤ MAX_SPLASHES →
    ((Streams.updateGo sc screen_w screen_h scaleX scaleY l acc sp rng).2.1).length ≤ MAX_SPLASHES := by
  induction l with
  | nil => intro acc sp rng hsp; exact hsp
  | cons st rest ih =>
    intro acc sp rng hsp
    unfold Streams.updateGo
    dsimp only
    exact ih _ _ _ (Streams.stream_step_bounds sc screen_w screen_h scaleX scaleY st sp rng hsp)

/-- The population invariant of one world state. -/
def RainWorld.Bounded (st : RainWorld) : Prop :=
  st.drops.length ≤ MAX_DROPS ∧ st.splashes.length ≤ MAX_SPLASHES ∧
    st.streams.length ≤ MAX_STREAMS

theorem RainWorld.tick_bounded (sc : Scene) (st : RainWorld)
    (hb : st.Bounded) : (RainWorld.tick sc st).Bounded := by
  obtain ⟨h1, h2, h3⟩ := hb
  have hspawn := Droplets.drop_spawn_length ((st.w >>> 6) + 1) st.drops
    ⟨(st.w : ℤ), 1⟩ st.rng h1
  have hdp := Droplets.drop_updateGo_bounds sc ⟨(st.w : ℤ), 1⟩ ⟨(st.h : ℤ), 1⟩
    st.scaleX st.scaleY
    (Droplets.spawn st.drops ((st.w >>> 6) + 1) ⟨(st.w : ℤ), 1⟩ st.rng).1
    [] st.splashes st.streams
    (Droplets.spawn st.drops ((st.w >>> 6) + 1) ⟨(st.w : ℤ), 1⟩ st.rng).2 h2 h3
  refine ⟨?_, ?_, ?_⟩
  · show (RainWorld.dropPhase sc st).1.length ≤ MAX_DROPS
    unfold RainWorld.dropPhase Droplets.update
    dsimp only
    rw [Droplets.drop_updateGo_fst]
    simpa using le_trans (List.length_filterMap_le _ _) hspawn
  · show (Streams.update sc ⟨(st.w : ℤ), 1⟩ ⟨(st.h : ℤ), 1⟩ st.scaleX st.scaleY
      (RainWorld.dropPhase sc st).2.2.1
      (Splashes.update (RainWorld.dropPhase sc st).2.1)).2.length ≤ MAX_SPLASHES
    unfold Streams.update
    dsimp only
    apply Streams.stream_updateGo_bounds
    apply le_trans (List.length_filterMap_le _ _)
    unfold RainWorld.dropPhase Droplets.update
    dsimp only
    exact hdp.1
  · show (Streams.update sc ⟨(st.w : ℤ), 1⟩ ⟨(st.h : ℤ), 1⟩ st.scaleX st.scaleY
      (RainWorld.dropPhase sc st).2.2.1
      (Splashes.update (RainWorld.dropPhase sc st).2.1)).1.length ≤ MAX_STREAMS
    unfold Streams.update
    dsimp only
    rw [Streams.stream_updateGo_fst]
    apply le_trans (by simpa using List.length_filterMap_le _ _)
    unfold RainWorld.dropPhase Droplets.update
    dsimp only
    exact hdp.2

/-- C2: in every state reachable through any sequence of construction,
resize and tick calls, the droplet count is at most 3000, the splash
count at most 200 and the stream count at most 500 (the lower bound 0 is
inherent in the list model).  Spawns drop entities at capacity and no
update pass grows a population (the capacity lemmas above). -/
theorem c2_population_bounds (sc : Scene) (st : RainWorld)
    (hr : Reachable sc st) :
    st.drops.length ≤ MAX_DROPS ∧ st.splashes.length ≤ MAX_SPLASHES ∧
      st.streams.length ≤ MAX_STREAMS := by
  induction hr with
  | init w h => exact ⟨by simp [RainWorld.new], by simp [RainWorld.new], by simp [RainWorld.new]⟩
  | resize w h _ ih =>
    exact ⟨by simp [RainWorld.resize], by simp [RainWorld.resize], by simp [RainWorld.resize]⟩
  | tick _ ih => exact RainWorld.tick_bounded _ _ ih

/-- Witness for C2 at a concretely constructed world. -/
theorem c2_population_bounds_witness :
    (RainWorld.new flatScene 4 4).drops.length ≤ MAX_DROPS ∧
    (RainWorld.new flatScene 4 4).splashes.length ≤ MAX_SPLASHES ∧
    (RainWorld.new flatScene 4 4).streams.length ≤ MAX_STREAMS :=
  c2_population_bounds flatScene _ (Reachable.init 4 4)

/-! The conflict-resolution rule of the encoder: replaying any
interleaving of the conditional stores leaves each pixel holding the
maximum of the initial byte and all candidate codes for that pixel. -/

/-- Candidate codes offered to pixel `p` by a list of stores. -/
def candidatesAt (p : ℕ) (ws : List (ℕ × ℕ)) : List ℕ :=
  ws.filterMap fun iw => if iw.1 = p then some iw.2 else none

/-- Maximum of a list of bytes, 0 when empty. -/
def listMax (l : List ℕ) : ℕ := l.foldr max 0

theorem listMax_cons (a : ℕ) (l : List ℕ) : listMax (a :: l) = max a (listMax l) := rfl

theorem candidatesAt_cons (p : ℕ) (iw : ℕ × ℕ) (ws : List (ℕ × ℕ)) :
    candidatesAt p (iw :: ws) =
      if iw.1 = p then iw.2 :: candidatesAt p ws else candidatesAt p ws := by
  by_cases h : iw.1 = p <;> simp [candidatesAt, List.filterMap_cons, h]

theorem listMax_perm {l1 l2 : List ℕ} (h : l1.Perm l2) : listMax l1 = listMax l2 := by
  induction h with
  | nil => rfl
  | cons x _ ih => rw [listMax_cons, listMax_cons, ih]
  | swap x y l =>
    rw [listMax_cons, listMax_cons, listMax_cons, listMax_cons,
      ← Nat.max_assoc, Nat.max_comm y x, Nat.max_assoc]
  | trans _ _ ih1 ih2 => rw [ih1, ih2]

theorem Encoder.commit_apply (ws : List (ℕ × ℕ)) :
    ∀ (buf : ℕ → ℕ) (p : ℕ),
    Encoder.commit buf ws p = max (buf p) (listMax (candidatesAt p ws)) := by
  induction ws with
  | nil => intro buf p; simp [Encoder.commit, candidatesAt, listMax]
  | cons iw rest ih =>
    intro buf p
    unfold Encoder.commit
    rw [ih]
    rw [candidatesAt_cons]
    by_cases hp : iw.1 = p
    · subst hp
      simp only [eq_self_iff_true, true_and, if_true, listMax_cons]
      split <;> omega
    · have hp2 : ¬ (p = iw.1 ∧ buf iw.1 < iw.2) := fun hc => hp (hc.1.symm)
      simp only [if_neg hp2, if_neg hp]

/-- C3: after the encode phase of one tick, each pixel of the output
buffer holds the maximum of 0 and every candidate code generated for it
by droplet trails, splash glyph marks and stream marks; a store whose
value is not strictly larger never replaces the stored byte, so any
interleaving (permutation) of the stores of the three encode passes
yields the same result. -/
theorem c3_encode_pixel_max (sc : Scene) (st : RainWorld) (ws2 : List (ℕ × ℕ))
    (p : ℕ) (hperm : ws2.Perm (RainWorld.tickWrites sc st)) :
    Encoder.commit (fun _ => 0) ws2 p =
      listMax (candidatesAt p (RainWorld.tickWrites sc st)) ∧
    (RainWorld.tick sc st).encoder.out p =
      listMax (candidatesAt p (RainWorld.tickWrites sc st)) := by
  constructor
  · rw [Encoder.commit_apply]
    simpa using listMax_perm (List.Perm.filterMap _ hperm)
  · show Encoder.commit ((st.encoder.clear).out) (RainWorld.tickWrites sc st) p = _
    rw [Encoder.commit_apply]
    simp [Encoder.clear]

/-- Witness for C3 at a concrete world and interleaving. -/
theorem c3_encode_pixel_max_witness :
    (RainWorld.tickWrites flatScene (RainWorld.new flatScene 2 2)).Perm
      (RainWorld.tickWrites flatScene (RainWorld.new flatScene 2 2)) ∧
    (Encoder.commit (fun _ => 0)
        (RainWorld.tickWrites flatScene (RainWorld.new flatScene 2 2)) 0 =
      listMax (candidatesAt 0 (RainWorld.tickWrites flatScene (RainWorld.new flatScene 2 2))) ∧
    (RainWorld.tick flatScene (RainWorld.new flatScene 2 2)).encoder.out 0 =
      listMax (candidatesAt 0 (RainWorld.tickWrites flatScene (RainWorld.new flatScene 2 2)))) :=
  ⟨List.Perm.refl _, c3_encode_pixel_max flatScene _ _ 0 (List.Perm.refl _)⟩

/-! Order preservation of forward compaction.  `keptBefore f l k` is the
value of the write cursor when the read cursor reaches slot `k`: the
number of survivors among the first `k` slots. -/

def keptBefore {α β : Type} (f : α → Option β) (l : List α) (k : ℕ) : ℕ :=
  ((l.take k).filterMap f).length

theorem keptBefore_succ {α β : Type} (f : α → Option β) (l : List α) (i : ℕ)
    (hi : i < l.length) (hs : (f (l.get ⟨i, hi⟩)).isSome) :
    keptBefore f l (i + 1) = keptBefore f l i + 1 := by
  obtain ⟨b, hb⟩ := Option.isSome_iff_exists.mp hs
  have hbi : f l[i] = some b := hb
  unfold keptBefore
  rw [List.take_succ, List.filterMap_append, List.length_append,
    List.getElem?_eq_getElem hi]
  simp [hbi]

theorem keptBefore_mono {α β : Type} (f : α → Option β) (l : List α)
    {k1 k2 : ℕ} (h : k1 ≤ k2) : keptBefore f l k1 ≤ keptBefore f l k2 := by
  have haux : ∀ (x : List α) (k : ℕ),
      ((x.take k).filterMap f).length ≤ (x.filterMap f).length := by
    intro x k
    conv_rhs => rw [← List.take_append_drop k x]
    rw [List.filterMap_append, List.length_append]
    omega
  have h2 : l.take k1 = (l.take k2).take k1 := by
    rw [List.take_take, min_eq_left h]
  unfold keptBefore
  rw [h2]
  exact haux (l.take k2) k1

theorem keptBefore_getElem {α β : Type} (f : α → Option β) (l : List α) (i : ℕ)
    (hi : i < l.length) (hs : (f (l.get ⟨i, hi⟩)).isSome) :
    (l.filterMap f)[keptBefore f l i]? = f (l.get ⟨i, hi⟩) := by
  obtain ⟨b, hb⟩ := Option.isSome_iff_exists.mp hs
  have hbi : f l[i] = some b := hb
  have hsplit : l.filterMap f = (l.take i).filterMap f ++ (l.drop i).filterMap f := by
    rw [← List.filterMap_append, List.take_append_drop]
  have hlen : ((l.take i).filterMap f).length ≤ keptBefore f l i := le_of_eq rfl
  rw [hsplit, List.getElem?_append_right hlen]
  have hsub : keptBefore f l i - ((l.take i).filterMap f).length = 0 := by
    unfold keptBefore; omega
  rw [hsub, List.drop_eq_getElem_cons hi, List.filterMap_cons, hbi]
  simp [hbi]

/-- Survivors of one compaction pass appear in the output at strictly
increasing cursor positions carrying their stepped values. -/
theorem keptBefore_order {α β : Type} (f : α → Option β) (l : List α) (i j : ℕ)
    (hij : i < j) (hj : j < l.length)
    (hi2 : (f (l.get ⟨i, lt_trans hij hj⟩)).isSome)
    (hj2 : (f (l.get ⟨j, hj⟩)).isSome) :
    keptBefore f l i < keptBefore f l j ∧
    (l.filterMap f)[keptBefore f l i]? = f (l.get ⟨i, lt_trans hij hj⟩) ∧
    (l.filterMap f)[keptBefore f l j]? = f (l.get ⟨j, hj⟩) := by
  refine ⟨?_, keptBefore_getElem f l i _ hi2, keptBefore_getElem f l j hj hj2⟩
  calc keptBefore f l i < keptBefore f l i + 1 := Nat.lt_succ_self _
    _ = keptBefore f l (i + 1) := (keptBefore_succ f l i _ hi2).symm
    _ ≤ keptBefore f l j := keptBefore_mono f l hij

theorem Droplets.drop_update_fst (sc : Scene) (screen_w screen_h : F)
    (scaleX scaleY : Option F) (l : List Droplet) (sp : List Splash)
    (str : List Stream) (rng : ℕ) :
    (Droplets.update sc screen_w screen_h scaleX scaleY l sp str rng).1 =
      l.filterMap (Droplets.stepOpt sc screen_w screen_h scaleX scaleY) := by
  unfold Droplets.update
  rw [Droplets.drop_updateGo_fst]
  simp

theorem Streams.stream_update_fst (sc : Scene) (screen_w screen_h : F)
    (scaleX scaleY : Option F) (l : List Stream) (sp : List Splash) :
    (Streams.update sc screen_w screen_h scaleX scaleY l sp).1 =
      l.filterMap (Streams.stepOpt sc screen_w screen_h scaleX scaleY) := by
  unfold Streams.update
  dsimp only
  rw [Streams.stream_updateGo_fst]
  simp

/-- C4: for each of the three populations, if entities at slots `i < j`
both survive one update pass, the survivor from slot `i` lands at a
strictly smaller cursor position than the survivor from slot `j`, each
carrying its updated state: forward compaction with a write cursor
preserves the relative order of all entities not removed in the pass. -/
theorem c4_compaction_preserves_order :
    (∀ (sc : Scene) (screen_w screen_h : F) (sx sy : Option F)
        (l : List Droplet) (sp : List Splash) (str : List Stream) (rng : ℕ)
        (i j : ℕ) (hij : i < j) (hj : j < l.length),
        (Droplets.stepOpt sc screen_w screen_h sx sy (l.get ⟨i, lt_trans hij hj⟩)).isSome →
        (Droplets.stepOpt sc screen_w screen_h sx sy (l.get ⟨j, hj⟩)).isSome →
        keptBefore (Droplets.stepOpt sc screen_w screen_h sx sy) l i <
          keptBefore (Droplets.stepOpt sc screen_w screen_h sx sy) l j ∧
        ((Droplets.update sc screen_w screen_h sx sy l sp str rng).1)[keptBefore (Droplets.stepOpt sc screen_w screen_h sx sy) l i]? =
          Droplets.stepOpt sc screen_w screen_h sx sy (l.get ⟨i, lt_trans hij hj⟩) ∧
        ((Droplets.update sc screen_w screen_h sx sy l sp str rng).1)[keptBefore (Droplets.stepOpt sc screen_w screen_h sx sy) l j]? =
          Droplets.stepOpt sc screen_w screen_h sx sy (l.get ⟨j, hj⟩)) ∧
    (∀ (l : List Splash) (i j : ℕ) (hij : i < j) (hj : j < l.length),
        (Splashes.stepOpt (l.get ⟨i, lt_trans hij hj⟩)).isSome →
        (Splashes.stepOpt (l.get ⟨j, hj⟩)).isSome →
        keptBefore Splashes.stepOpt l i < keptBefore Splashes.stepOpt l j ∧
        (Splashes.update l)[keptBefore Splashes.stepOpt l i]? =
          Splashes.stepOpt (l.get ⟨i, lt_trans hij hj⟩) ∧
        (Splashes.update l)[keptBefore Splashes.stepOpt l j]? =
          Splashes.stepOpt (l.get ⟨j, hj⟩)) ∧
    (∀ (sc : Scene) (screen_w screen_h : F) (sx sy : Option F)
        (l : List Stream) (sp : List Splash) (i j : ℕ) (hij : i < j)
        (hj : j < l.length),
        (Streams.stepOpt sc screen_w screen_h sx sy (l.get ⟨i, lt_trans hij hj⟩)).isSome →
        (Streams.stepOpt sc screen_w screen_h sx sy (l.get ⟨j, hj⟩)).isSome →
        keptBefore (Streams.stepOpt sc screen_w screen_h sx sy) l i <
          keptBefore (Streams.stepOpt sc screen_w screen_h sx sy) l j ∧
        ((Streams.update sc screen_w screen_h sx sy l sp).1)[keptBefore (Streams.stepOpt sc screen_w screen_h sx sy) l i]? =
          Streams.stepOpt sc screen_w screen_h sx sy (l.get ⟨i, lt_trans hij hj⟩) ∧
        ((Streams.update sc screen_w screen_h sx sy l sp).1)[keptBefore (Streams.stepOpt sc screen_w screen_h sx sy) l j]? =
          Streams.stepOpt sc screen_w screen_h sx sy (l.get ⟨j, hj⟩)) := by
  refine ⟨?_, ?_, ?_⟩
  · intro sc screen_w screen_h sx sy l sp str rng i j hij hj hi2 hj2
    rw [Droplets.drop_update_fst]
    exact keptBefore_order _ l i j hij hj hi2 hj2
  · intro l i j hij hj hi2 hj2
    exact keptBefore_order _ l i j hij hj hi2 hj2
  · intro sc screen_w screen_h sx sy l sp i j hij hj hi2 hj2
    rw [Streams.stream_update_fst]
    exact keptBefore_order _ l i j hij hj hi2 hj2

/-- Two splashes that both survive an update pass. -/
def c4wList : List Splash :=
  [{ x := 0, y := 0, z := 0, frame := 0, dir := 0, typ := 0 },
   { x := 1, y := 1, z := 0, frame := 3, dir := 0, typ := 1 }]

/-- Witness for C4 on a concrete splash pass. -/
theorem c4_compaction_preserves_order_witness :
    keptBefore Splashes.stepOpt c4wList 0 < keptBefore Splashes.stepOpt c4wList 1 ∧
    (Splashes.update c4wList)[keptBefore Splashes.stepOpt c4wList 0]? =
      Splashes.stepOpt (c4wList.get ⟨0, by decide⟩) ∧
    (Splashes.update c4wList)[keptBefore Splashes.stepOpt c4wList 1]? =
      Splashes.stepOpt (c4wList.get ⟨1, by decide⟩) :=
  c4_compaction_preserves_order.2.1 c4wList 0 1 (by decide) (by decide)
    (by decide) (by decide)

/-- A stream about to slide off the edge of the geometry in `edgeScene`:
its moved position maps to raster column 6, which is sky. -/
def edgeStream : Stream := { x := ⟨119, 20⟩, y := 5, z := 0, life := 100 }

/-- Counterexample to C5 as stated: a fresh stream (`life > 60`) whose
moved position stays on screen and no longer hits the surface spawns a
splash of type 2 (right-burst), not type 3 (spray) as the claim says. -/
theorem c5_counterexample :
    (¬ ((Streams.moved edgeScene (scaleFactor 10 10) (scaleFactor 10 10) edgeStream).1 < 0 ∨
        (10 : F) ≤ (Streams.moved edgeScene (scaleFactor 10 10) (scaleFactor 10 10) edgeStream).1 ∨
        (Streams.moved edgeScene (scaleFactor 10 10) (scaleFactor 10 10) edgeStream).2 < 0 ∨
        (10 : F) ≤ (Streams.moved edgeScene (scaleFactor 10 10) (scaleFactor 10 10) edgeStream).2)) ∧
    hits_surface edgeScene
      (scaledToUsize (scaleFactor 10 10) (Streams.moved edgeScene (scaleFactor 10 10) (scaleFactor 10 10) edgeStream).1)
      (scaledToUsize (scaleFactor 10 10) (Streams.moved edgeScene (scaleFactor 10 10) (scaleFactor 10 10) edgeStream).2)
      edgeStream.z DEPTH_MARGIN = false ∧
    60 < edgeStream.life ∧
    (Streams.update edgeScene 10 10 (scaleFactor 10 10) (scaleFactor 10 10) [edgeStream] []).1 = [] ∧
    (Streams.update edgeScene 10 10 (scaleFactor 10 10) (scaleFactor 10 10) [edgeStream] []).2.map Splash.typ = [2] ∧
    (Streams.update edgeScene 10 10 (scaleFactor 10 10) (scaleFactor 10 10) [edgeStream] []).2.map Splash.typ ≠ [3] := by
  decide

/-- C5 amended: for every stream processed in an update pass whose moved
position stays on screen, if the moved position no longer hits the
surface and `life > 60`, exactly one splash of type right-burst (typ 2)
is spawned (when the splash set is below capacity) and the stream is
removed; if it still hits the surface but has no flow, exactly one
splash of type crown (typ 0) is spawned (below capacity) and the stream
is removed; a stream whose moved position leaves the screen is removed
with no splash spawned. -/
theorem c5_stream_conversion (sc : Scene) (screen_w screen_h : F)
    (sx sy : Option F) (st : Stream) (sp : List Splash) (rng : ℕ)
    (hlife : st.life ≠ 0) :
    (((Streams.moved sc sx sy st).1 < 0 ∨ screen_w ≤ (Streams.moved sc sx sy st).1 ∨
        (Streams.moved sc sx sy st).2 < 0 ∨ screen_h ≤ (Streams.moved sc sx sy st).2) →
      Streams.step sc screen_w screen_h sx sy st sp rng = (none, sp, rng)) ∧
    (¬ ((Streams.moved sc sx sy st).1 < 0 ∨ screen_w ≤ (Streams.moved sc sx sy st).1 ∨
        (Streams.moved sc sx sy st).2 < 0 ∨ screen_h ≤ (Streams.moved sc sx sy st).2) →
      (hits_surface sc (scaledToUsize sx (Streams.moved sc sx sy st).1)
          (scaledToUsize sy (Streams.moved sc sx sy st).2) st.z DEPTH_MARGIN = false →
        60 < st.life → sp.length < MAX_SPLASHES →
        (Streams.step sc screen_w screen_h sx sy st sp rng).1 = none ∧
        ∃ s2 : Splash, (Streams.step sc screen_w screen_h sx sy st sp rng).2.1 = sp ++ [s2] ∧
          s2.typ = 2) ∧
      (hits_surface sc (scaledToUsize sx (Streams.moved sc sx sy st).1)
          (scaledToUsize sy (Streams.moved sc sx sy st).2) st.z DEPTH_MARGIN = true →
        has_flow sc (scaledToUsize sx (Streams.moved sc sx sy st).1)
          (scaledToUsize sy (Streams.moved sc sx sy st).2) = false →
        sp.length < MAX_SPLASHES →
        (Streams.step sc screen_w screen_h sx sy st sp rng).1 = none ∧
        ∃ s2 : Splash, (Streams.step sc screen_w screen_h sx sy st sp rng).2.1 = sp ++ [s2] ∧
          s2.typ = 0)) := by
  refine ⟨fun hb => ?_, fun hnb => ⟨fun hhit hfresh hcap => ?_, fun hhit hflow hcap => ?_⟩⟩
  · unfold Streams.step
    dsimp only
    rw [if_neg hlife, if_pos hb]
  · have hstep : Streams.step sc screen_w screen_h sx sy st sp rng =
        (none,
          (Splashes.spawn sp (Streams.moved sc sx sy st).1 (Streams.moved sc sx sy st).2 st.z 2 rng).1,
          (Splashes.spawn sp (Streams.moved sc sx sy st).1 (Streams.moved sc sx sy st).2 st.z 2 rng).2) := by
      unfold Streams.step
      dsimp only
      rw [if_neg hlife, if_neg hnb, if_pos hhit, if_pos hfresh]
    rw [hstep]
    refine ⟨rfl, ?_⟩
    unfold Splashes.spawn
    rw [if_neg (not_le.mpr hcap)]
    exact ⟨_, rfl, rfl⟩
  · have hfalse : ¬ (hits_surface sc (scaledToUsize sx (Streams.moved sc sx sy st).1)
        (scaledToUsize sy (Streams.moved sc sx sy st).2) st.z DEPTH_MARGIN = false) := by
      simp [hhit]
    have hstep : Streams.step sc screen_w screen_h sx sy st sp rng =
        (none,
          (Splashes.spawn sp (Streams.moved sc sx sy st).1 (Streams.moved sc sx sy st).2 st.z 0 rng).1,
          (Splashes.spawn sp (Streams.moved sc sx sy st).1 (Streams.moved sc sx sy st).2 st.z 0 rng).2) := by
      unfold Streams.step
      dsimp only
      rw [if_neg hlife, if_neg hnb, if_neg hfalse, if_pos hflow]
    rw [hstep]
    refine ⟨rfl, ?_⟩
    unfold Splashes.spawn
    rw [if_neg (not_le.mpr hcap)]
    exact ⟨_, rfl, rfl⟩

/-- Witness for C5 (amended) on a concrete pooling stream. -/
theorem c5_stream_conversion_witness :
    (Streams.step crownScene 10 10 (scaleFactor 10 10) (scaleFactor 10 10)
        { x := 5, y := 5, z := 0, life := 100 } [] 7).1 = none ∧
    ∃ s2 : Splash,
      (Streams.step crownScene 10 10 (scaleFactor 10 10) (scaleFactor 10 10)
          { x := 5, y := 5, z := 0, life := 100 } [] 7).2.1 = [] ++ [s2] ∧
      s2.typ = 0 :=
  ((c5_stream_conversion crownScene 10 10 (scaleFactor 10 10) (scaleFactor 10 10)
      { x := 5, y := 5, z := 0, life := 100 } [] 7 (by decide)).2
    (by decide)).2 (by decide) (by decide) (by decide)

/-- Counterexample to C6 as stated: a stream with `life = 1` that stays
on a flowing surface survives the pass, and after the pass the live set
holds a stream with `life = 0`. -/
theorem c6_counterexample :
    (Streams.update flatScene 10 10 (scaleFactor 10 10) (scaleFactor 10 10)
        [{ x := 5, y := 5, z := 0, life := 1 }] []).1.map Stream.life = [0] := by
  decide

/-- C6 amended: every stream that survives an update pass without
converting to a splash has its life decreased by exactly 1; a stream
whose life is already 0 at the start of a pass is removed by that pass
without any splash (so a live stream can show `life = 0` for exactly the
one tick after its last decrement, and never acts again). -/
theorem c6_stream_life (sc : Scene) (screen_w screen_h : F)
    (sx sy : Option F) (st : Stream) (sp : List Splash) (rng : ℕ) :
    (∀ s2 : Stream, (Streams.step sc screen_w screen_h sx sy st sp rng).1 = some s2 →
      s2.life + 1 = st.life) ∧
    (st.life = 0 → Streams.step sc screen_w screen_h sx sy st sp rng = (none, sp, rng)) := by
  constructor
  · intro s2 hs2
    by_cases hlife : st.life = 0
    · unfold Streams.step at hs2
      dsimp only at hs2
      rw [if_pos hlife] at hs2
      simp at hs2
    · unfold Streams.step at hs2
      dsimp only at hs2
      rw [if_neg hlife] at hs2
      split at hs2
      · simp at hs2
      · split at hs2
        · split at hs2 <;> simp at hs2
        · split at hs2
          · simp at hs2
          · dsimp only at hs2
            injection hs2 with h2
            subst h2
            dsimp only
            omega
  · intro h0
    unfold Streams.step
    dsimp only
    rw [if_pos h0]

/-- Witness for C6 (amended) on a concrete surviving stream. -/
theorem c6_stream_life_witness :
    ({ x := ⟨6858, 1270⟩, y := ⟨6350, 1270⟩, z := 0, life := 4 } : Stream).life + 1 =
      ({ x := 5, y := 5, z := 0, life := 5 } : Stream).life :=
  (c6_stream_life flatScene 10 10 (scaleFactor 10 10) (scaleFactor 10 10)
      { x := 5, y := 5, z := 0, life := 5 } [] 7).1
    { x := ⟨6858, 1270⟩, y := ⟨6350, 1270⟩, z := 0, life := 4 } (by decide)

/-- Modelled from the spec: section 5 states that the single 32-bit
xorshift register owned by the orchestrator is "passed by exclusive
reference into whichever subsystem needs it", covering the splashes
spawned by stream conversions.  This refinement variant of
`Streams.update` follows those words: the conversion spawns draw from
the caller's register, which is returned advanced.  The code instead
seeds a local register with the constant `0x12345678`
(`sim/stream.rs` line 61). -/
def Streams.updateSpecRng (sc : Scene) (screen_w screen_h : F)
    (scaleX scaleY : Option F) (l : List Stream) (splashes : List Splash)
    (rng : ℕ) : List Stream × List Splash × ℕ :=
  Streams.updateGo sc screen_w screen_h scaleX scaleY l [] splashes rng

/-- Modelled from the spec: `RainWorld::tick` as it would read if the
stream update drew from the orchestrator register (section 5); used only
to compare against the actual `RainWorld.tick`. -/
def RainWorld.tickSpecC7 (sc : Scene) (st : RainWorld) : RainWorld :=
  let dq := RainWorld.dropPhase sc st
  let splashes2 := Splashes.update dq.2.1
  let sq := Streams.updateSpecRng sc ⟨(st.w : ℤ), 1⟩ ⟨(st.h : ℤ), 1⟩ st.scaleX
    st.scaleY dq.2.2.1 splashes2 dq.2.2.2
  let cleared := st.encoder.clear
  let wi := i32wrap (st.w : ℤ)
  let hi := i32wrap (st.h : ℤ)
  let ws := Encoder.encode_drops dq.1 wi hi ++
    Encoder.encode_splashes sq.2.1 wi hi ++ Encoder.encode_streams sq.1 wi hi
  { st with
    drops := dq.1, splashes := sq.2.1, streams := sq.1, rng := sq.2.2
    encoder := { cleared with out := Encoder.commit cleared.out ws } }

/-- A world whose single stream pools this tick, so the stream phase
spawns a splash and therefore draws random splash parameters. -/
def st1C7 : RainWorld :=
  { RainWorld.new crownScene 10 10 with
    streams := [{ x := 5, y := 5, z := 0, life := 100 }], rng := 1 }

/-- Counterexample to C7 as stated: in a tick whose stream phase
converts a stream into a splash, the splash parameters drawn differ from
what the orchestrator-register sequence would produce — the conversion
draws come from the fixed local register, not from the shared one. -/
theorem c7_counterexample :
    (RainWorld.tick crownScene st1C7).splashes.map Splash.x =
      [⟨218127823840, 42614128640⟩] ∧
    (RainWorld.tickSpecC7 crownScene st1C7).splashes.map Splash.x =
      [⟨223040356560, 42614128640⟩] ∧
    ¬ F.equiv (⟨218127823840, 42614128640⟩ : F) ⟨223040356560, 42614128640⟩ := by
  decide

theorem Droplets.step_eff (sc : Scene) (screen_w screen_h : F)
    (sx sy : Option F) (d : Droplet) (sp : List Splash) (rng : ℕ)
    (str1 str2 : List Stream) :
    ((Droplets.step sc screen_w screen_h sx sy d sp str1 rng).2.1,
      (Droplets.step sc screen_w screen_h sx sy d sp str1 rng).2.2.2) =
    ((Droplets.step sc screen_w screen_h sx sy d sp str2 rng).2.1,
      (Droplets.step sc screen_w screen_h sx sy d sp str2 rng).2.2.2) := by
  unfold Droplets.step
  dsimp only
  split
  · split
    · split <;> rfl
    · rfl
  · split
    · split <;> rfl
    · rfl

theorem Droplets.updateGo_eff (sc : Scene) (screen_w screen_h : F)
    (sx sy : Option F) (l : List Droplet) :
    ∀ (acc1 acc2 : List Droplet) (str1 str2 : List Stream) (sp : List Splash)
      (rng : ℕ),
    ((Droplets.updateGo sc screen_w screen_h sx sy l acc1 sp str1 rng).2.1,
      (Droplets.updateGo sc screen_w screen_h sx sy l acc1 sp str1 rng).2.2.2) =
    ((Droplets.updateGo sc screen_w screen_h sx sy l acc2 sp str2 rng).2.1,
      (Droplets.updateGo sc screen_w screen_h sx sy l acc2 sp str2 rng).2.2.2) := by
  induction l with
  | nil => intro acc1 acc2 str1 str2 sp rng; rfl
  | cons d rest ih =>
    intro acc1 acc2 str1 str2 sp rng
    unfold Droplets.updateGo
    dsimp only
    have he := Droplets.step_eff sc screen_w screen_h sx sy d sp rng str1 str2
    have h1 := congrArg Prod.fst he
    have h2 := congrArg Prod.snd he
    dsimp only at h1 h2
    rw [h1, h2]
    exact ih _ _ _ _ _ _

/-- C7 amended: every draw of a tick except those of stream-conversion
splashes is taken from the orchestrator's register — the final register
equals the register left by the droplet phase (spawn plus droplet
update), the splash update and encode phases draw nothing, and the
stream phase draws only from its fixed local register, so the final
register does not depend on the stream population at all.  Determinism
for a fixed register is inherent in the functional model. -/
theorem c7_rng_ownership (sc : Scene) (st : RainWorld) (ls : List Stream) :
    (RainWorld.tick sc { st with streams := ls }).rng =
      (RainWorld.tick sc st).rng ∧
    (RainWorld.tick sc st).rng = (RainWorld.dropPhase sc st).2.2.2 := by
  constructor
  · show (RainWorld.dropPhase sc { st with streams := ls }).2.2.2 =
      (RainWorld.dropPhase sc st).2.2.2
    unfold RainWorld.dropPhase Droplets.update
    dsimp only
    have he := Droplets.updateGo_eff sc ⟨(st.w : ℤ), 1⟩
      ⟨(st.h : ℤ), 1⟩ st.scaleX st.scaleY
      (Droplets.spawn st.drops (st.w >>> 6 + 1) ⟨(st.w : ℤ), 1⟩ st.rng).1 [] []
      ls st.streams st.splashes
      (Droplets.spawn st.drops (st.w >>> 6 + 1) ⟨(st.w : ℤ), 1⟩ st.rng).2
    have h2 := congrArg Prod.snd he
    dsimp only at h2
    exact h2
  · rfl

/-- A world holding one droplet placed to hit the flowing surface this
tick, spawning a stream whose position the same tick's stream phase then
moves (the register 1 makes the slide check pass). -/
def st0C8 : RainWorld :=
  { RainWorld.new flatScene 10 10 with
    drops := [{ x := 5, y := 2, z := 0, v := 1 }], rng := 1 }

/-- Counterexample to C8 as stated: the droplet phase of this tick
spawns a stream at position `(5, 3)`, and at the end of the same tick
that stream's x-coordinate is `5 + (127/127) * 0.4 = 5.4`, not the
position it was spawned with: a stream spawned in tick T is already
moved by tick T's stream phase. -/
theorem c8_counterexample :
    (RainWorld.dropPhase flatScene st0C8).2.2.1 =
      [{ x := 5, y := 3, z := 0, life := 120 }] ∧
    (RainWorld.tick flatScene st0C8).streams.map Stream.x = [⟨6858, 1270⟩] ∧
    ¬ F.equiv (⟨6858, 1270⟩ : F) 5 := by
  decide

/-- C8 amended: the stream-update phase of tick T processes exactly the
stream set left by tick T's droplet phase — including the streams that
phase has just spawned — and every stream surviving the stream phase has
been moved to its flow-advanced position within that same tick. -/
theorem c8_stream_same_tick (sc : Scene) (st : RainWorld) :
    (RainWorld.tick sc st).streams =
      (Streams.update sc ⟨(st.w : ℤ), 1⟩ ⟨(st.h : ℤ), 1⟩ st.scaleX st.scaleY
        (RainWorld.dropPhase sc st).2.2.1
        (Splashes.update (RainWorld.dropPhase sc st).2.1)).1 ∧
    (∀ (screen_w screen_h : F) (sx sy : Option F) (s : Stream)
        (sp : List Splash) (rng : ℕ) (s2 : Stream),
      (Streams.step sc screen_w screen_h sx sy s sp rng).1 = some s2 →
      s2.x = (Streams.moved sc sx sy s).1 ∧ s2.y = (Streams.moved sc sx sy s).2) := by
  constructor
  · rfl
  · intro screen_w screen_h sx sy s sp rng s2 hs2
    by_cases hlife : s.life = 0
    · unfold Streams.step at hs2
      dsimp only at hs2
      rw [if_pos hlife] at hs2
      simp at hs2
    · unfold Streams.step at hs2
      dsimp only at hs2
      rw [if_neg hlife] at hs2
      split at hs2
      · simp at hs2
      · split at hs2
        · split at hs2 <;> simp at hs2
        · split at hs2
          · simp at hs2
          · dsimp only at hs2
            injection hs2 with h2
            subst h2
            exact ⟨rfl, rfl⟩

/-- Witness for C8 (amended) on a concrete surviving stream. -/
theorem c8_stream_same_tick_witness :
    ({ x := ⟨6858, 1270⟩, y := ⟨6350, 1270⟩, z := 0, life := 4 } : Stream).x =
      (Streams.moved flatScene (scaleFactor 10 10) (scaleFactor 10 10)
        { x := 5, y := 5, z := 0, life := 5 }).1 ∧
    ({ x := ⟨6858, 1270⟩, y := ⟨6350, 1270⟩, z := 0, life := 4 } : Stream).y =
      (Streams.moved flatScene (scaleFactor 10 10) (scaleFactor 10 10)
        { x := 5, y := 5, z := 0, life := 5 }).2 :=
  (c8_stream_same_tick flatScene (RainWorld.new flatScene 10 10)).2 10 10
    (scaleFactor 10 10) (scaleFactor 10 10) { x := 5, y := 5, z := 0, life := 5 }
    [] 7 { x := ⟨6858, 1270⟩, y := ⟨6350, 1270⟩, z := 0, life := 4 } (by decide)

/-- Counterexample to C9 as stated: `new` with width 0 performs the
unguarded division `BG_WIDTH as f32 / 0.0`, whose non-finite IEEE result
is modelled by `none` — there is no explicit guard producing a finite
scale factor.  (The output buffer is nevertheless empty, the true part
of the claim.) -/
theorem c9_counterexample :
    (RainWorld.new flatScene 0 50).scaleX = none ∧
    RainWorld.output_len (RainWorld.new flatScene 0 50) = 0 := by
  decide

theorem RainWorld.tick_output_len (sc : Scene) (st : RainWorld) :
    (RainWorld.tick sc st).output_len = st.output_len := rfl

theorem RainWorld.ticks_output_len (sc : Scene) (n : ℕ) :
    ∀ st : RainWorld, (RainWorld.ticks sc n st).output_len = st.output_len := by
  induction n with
  | zero => intro st; rfl
  | succ k ih =>
    intro st
    show (RainWorld.ticks sc k (RainWorld.tick sc st)).output_len = _
    rw [ih, RainWorld.tick_output_len]

/-- C9 amended: `new` or `resize` with a zero dimension yields a
zero-length output buffer, and every subsequent tick keeps the buffer
valid and zero-length; but the scale-factor computation does not guard
the zero case — it performs the IEEE division, producing a non-finite
scale (see the counterexample), which is harmless because the on-screen
checks fail before any raster lookup uses it. -/
theorem c9_zero_dims (sc : Scene) (st : RainWorld) (w h n : ℕ)
    (hz : w = 0 ∨ h = 0) :
    RainWorld.output_len (RainWorld.ticks sc n (RainWorld.new sc w h)) = 0 ∧
    RainWorld.output_len (RainWorld.ticks sc n (RainWorld.resize sc st w h)) = 0 := by
  have hwh : w * h % 4294967296 = 0 := by
    rcases hz with h0 | h0 <;> simp [h0]
  constructor
  · rw [RainWorld.ticks_output_len]
    simp [RainWorld.new, RainWorld.output_len, Encoder.new, hwh]
  · rw [RainWorld.ticks_output_len]
    simp [RainWorld.resize, RainWorld.output_len, Encoder.resize, hwh]

/-- Witness for C9 (amended) at concrete zero-width dimensions. -/
theorem c9_zero_dims_witness :
    RainWorld.output_len
      (RainWorld.ticks flatScene 2 (RainWorld.new flatScene 0 50)) = 0 ∧
    RainWorld.output_len
      (RainWorld.ticks flatScene 2
        (RainWorld.resize flatScene (RainWorld.new flatScene 3 3) 0 50)) = 0 :=
  c9_zero_dims flatScene (RainWorld.new flatScene 3 3) 0 50 2 (Or.inl rfl)

/-! Bounds safety of the encode phase. -/

theorem i32wrap_bounds (x : ℤ) :
    -2147483648 ≤ i32wrap x ∧ i32wrap x < 2147483648 := by
  unfold i32wrap
  have h1 : 0 ≤ (x + 2147483648) % 4294967296 :=
    Int.emod_nonneg _ (by norm_num)
  have h2 : (x + 2147483648) % 4294967296 < 4294967296 :=
    Int.emod_lt_of_pos _ (by norm_num)
  omega

theorem idx_toNat_lt {x y w h : ℤ} (hx0 : 0 ≤ x) (hxw : x < w) (hy0 : 0 ≤ y)
    (hyh : y < h) : (y * w + x).toNat < (w * h).toNat := by
  have hw : 0 < w := lt_of_le_of_lt hx0 hxw
  have hyw : (y + 1) * w ≤ h * w :=
    mul_le_mul_of_nonneg_right (by omega) (le_of_lt hw)
  have hidx : y * w + x < w * h := by
    calc y * w + x < y * w + w := by omega
      _ = (y + 1) * w := by ring
      _ ≤ h * w := hyw
      _ = w * h := mul_comm h w
  have h0 : 0 ≤ y * w := mul_nonneg hy0 (le_of_lt hw)
  omega

theorem Encoder.putWrite_lt (x y : ℤ) (c b : ℕ) (w h : ℤ) (iw : ℕ × ℕ)
    (hw : 0 ≤ w) (hh : 0 ≤ h) (hwh : w * h ≤ 2147483648)
    (hsome : Encoder.putWrite x y c b w h = some iw) :
    iw.1 < (w * h).toNat := by
  unfold Encoder.putWrite at hsome
  dsimp only at hsome
  split at hsome
  · rename_i hcond
    obtain ⟨hcx, hcy⟩ := hcond
    injection hsome with he
    subst he
    dsimp only
    have hbx := i32wrap_bounds x
    have hby := i32wrap_bounds y
    unfold i32ToU32 at hcx hcy
    have hw1 : 1 ≤ w := by
      by_cases hw0 : w = 0
      · subst hw0; omega
      · omega
    have hh1 : 1 ≤ h := by
      by_cases hh0 : h = 0
      · subst hh0; omega
      · omega
    have hwle : w ≤ 2147483648 := by
      calc w = w * 1 := (mul_one w).symm
        _ ≤ w * h := mul_le_mul_of_nonneg_left hh1 hw
        _ ≤ 2147483648 := hwh
    have hhle : h ≤ 2147483648 := by
      calc h = 1 * h := (one_mul h).symm
        _ ≤ w * h := mul_le_mul_of_nonneg_right hw1 hh
        _ ≤ 2147483648 := hwh
    have hAx : 0 ≤ i32wrap x ∧ i32wrap x < w := by omega
    have hBy : 0 ≤ i32wrap y ∧ i32wrap y < h := by omega
    exact idx_toNat_lt hAx.1 hAx.2 hBy.1 hBy.2
  · exact Option.noConfusion hsome

theorem Encoder.dropWrites_lt (d : Droplet) (w h : ℤ) (_hw : 0 ≤ w) (_hh : 0 ≤ h)
    (_hwh : w * h ≤ 2147483648) :
    ∀ iw ∈ Encoder.dropWrites d w h, iw.1 < (w * h).toNat := by
  intro iw hmem
  unfold Encoder.dropWrites at hmem
  dsimp only at hmem
  by_cases hxw : (F.toI32 d.x < 0 ∨ w ≤ F.toI32 d.x)
  · rw [if_pos hxw] at hmem
    exact absurd hmem (List.not_mem_nil _)
  · rw [if_neg hxw] at hmem
    rw [List.mem_filterMap] at hmem
    obtain ⟨dy, _, hsome⟩ := hmem
    by_cases hpy : (0 ≤ i32wrap (F.toI32 d.y - (dy : ℤ)) ∧
        i32wrap (F.toI32 d.y - (dy : ℤ)) < h)
    · rw [if_pos hpy] at hsome
      injection hsome with he
      subst he
      dsimp only
      exact idx_toNat_lt (by omega) (by omega) hpy.1 hpy.2
    · rw [if_neg hpy] at hsome
      exact Option.noConfusion hsome

theorem Encoder.streamWrites_lt (st : Stream) (w h : ℤ) (_hw : 0 ≤ w)
    (_hh : 0 ≤ h) (_hwh : w * h ≤ 2147483648) :
    ∀ iw ∈ Encoder.streamWrites st w h, iw.1 < (w * h).toNat := by
  intro iw hmem
  unfold Encoder.streamWrites at hmem
  dsimp only at hmem
  by_cases hb : (F.toI32 st.x < 0 ∨ w ≤ F.toI32 st.x ∨ F.toI32 st.y < 0 ∨
      h ≤ F.toI32 st.y)
  · rw [if_pos hb] at hmem
    exact absurd hmem (List.not_mem_nil _)
  · rw [if_neg hb] at hmem
    rw [List.mem_singleton] at hmem
    subst hmem
    dsimp only
    exact idx_toNat_lt (by omega) (by omega) (by omega) (by omega)

theorem Encoder.render_splashWrites_lt (cx gy : ℤ) (b : ℕ) (s : ℤ) (f : ℕ)
    (d : ℤ) (typ : ℕ) (w h : ℤ) (hw : 0 ≤ w) (hh : 0 ≤ h)
    (hwh : w * h ≤ 2147483648) :
    ∀ iw ∈ Encoder.render_splashWrites cx gy b s f d typ w h,
      iw.1 < (w * h).toNat := by
  intro iw hmem
  unfold Encoder.render_splashWrites at hmem
  split at hmem
  · dsimp only at hmem
    rcases hput : Encoder.putWrite cx gy
        (if f < 3 then 0 else if f < 6 then 2 else 6) b w h with _ | iw0
    · rw [hput] at hmem
      exact absurd hmem (List.not_mem_nil _)
    · rw [hput] at hmem
      rw [Option.toList_some, List.mem_singleton] at hmem
      subst hmem
      exact Encoder.putWrite_lt _ _ _ _ _ _ _ hw hh hwh hput
  · dsimp only at hmem
    rw [List.mem_filterMap] at hmem
    obtain ⟨m, _, hsome⟩ := hmem
    exact Encoder.putWrite_lt _ _ _ _ _ _ _ hw hh hwh hsome

/-- C10: with screen dimensions in the `i32` range whose product fits an
`i32` buffer, every store produced by the three encode passes — for
arbitrary entity coordinates, depths, directions, frames and lives —
targets an index strictly below `w * h`: each store is guarded by its
bounds check, so the encode phase never indexes the output buffer out of
bounds. -/
theorem c10_encode_in_bounds (drops : List Droplet) (splashes : List Splash)
    (streams : List Stream) (w h : ℤ) (hw : 0 ≤ w) (hh : 0 ≤ h)
    (hwh : w * h ≤ 2147483648) :
    ∀ iw ∈ Encoder.encode_drops drops w h ++
        Encoder.encode_splashes splashes w h ++
        Encoder.encode_streams streams w h,
      iw.1 < (w * h).toNat := by
  intro iw hmem
  rw [List.mem_append, List.mem_append] at hmem
  rcases hmem with (hd | hs) | ht
  · unfold Encoder.encode_drops at hd
    rw [List.mem_flatten] at hd
    obtain ⟨l, hl, hiw⟩ := hd
    rw [List.mem_map] at hl
    obtain ⟨d0, _, rfl⟩ := hl
    exact Encoder.dropWrites_lt d0 w h hw hh hwh iw hiw
  · unfold Encoder.encode_splashes at hs
    rw [List.mem_flatten] at hs
    obtain ⟨l, hl, hiw⟩ := hs
    rw [List.mem_map] at hl
    obtain ⟨sp0, _, rfl⟩ := hl
    unfold Encoder.splashWrites at hiw
    exact Encoder.render_splashWrites_lt _ _ _ _ _ _ _ w h hw hh hwh iw hiw
  · unfold Encoder.encode_streams at ht
    rw [List.mem_flatten] at ht
    obtain ⟨l, hl, hiw⟩ := ht
    rw [List.mem_map] at hl
    obtain ⟨st0, _, rfl⟩ := hl
    exact Encoder.streamWrites_lt st0 w h hw hh hwh iw hiw

/-- A splash whose frame-0 crown glyph writes pixel (1,1) of a 2 by 2
screen. -/
def c10wSplash : Splash := { x := 1, y := 1, z := 0, frame := 0, dir := 0, typ := 0 }

/-- Witness for C10 at a concrete splash store. -/
theorem c10_encode_in_bounds_witness :
    ((3, 89) ∈ Encoder.encode_drops [] 2 2 ++
      Encoder.encode_splashes [c10wSplash] 2 2 ++
      Encoder.encode_streams [] 2 2) ∧
    ((3 : ℕ) < ((2 : ℤ) * 2).toNat) :=
  ⟨by decide,
    c10_encode_in_bounds [] [c10wSplash] [] 2 2 (by decide) (by decide)
      (by decide) (3, 89) (by decide)⟩

end Rain
